import Mathlib

/-!
Verification of the task-execution and API-resilience core of the
canvas_fastapi_lti repository, shallowly embedded in Lean 4.

Embedded components (translated from the Python source):
* `app/core/canvas_error_handler.py` — error classification and retry delays
* `app/core/rate_limiter.py`         — dual-scope sliding-window rate limiter
* `app/qa_framework/base/execution_engine.py` and `data_models.py`
                                      — execution lifecycle and cancellation
* `app/qa_framework/utils/progress_tracker.py` — progress fan-out

Retry delays are modelled as rationals and rate-limiter timestamps as
integers; the machine floats of the source only ever undergo `+`, `-`,
`*`, `min` and comparisons at magnitudes where the float computation is
exact, so these models are faithful.  String message fields that no claim
refers to (user_message, technical message) are omitted from the records.
-/

/-! ### Error classifier: `app/core/canvas_error_handler.py` -/

/-- `CanvasErrorType` enum (canvas_error_handler.py, lines 24-53). -/
inductive CanvasErrorType where
  | networkTimeout
  | networkConnection
  | serverError
  | gatewayError
  | serviceUnavailable
  | rateLimited
  | unauthorized
  | forbidden
  | tokenExpired
  | notFound
  | badRequest
  | validationError
  | conflict
  | canvasMaintenance
  | canvasOverloaded
  | canvasFeatureDisabled
  | unknown
deriving DecidableEq, Repr

/-- `RetryStrategy` enum (canvas_error_handler.py, lines 56-62). -/
inductive RetryStrategyM where
  | noRetry
  | immediateRetry
  | exponentialBackoff
  | linearBackoff
  | rateLimitBackoff
deriving DecidableEq, Repr

/-- The ordered pattern table of `_initialize_error_patterns`
(canvas_error_handler.py, lines 108-138).  Python dicts preserve insertion
order, which the refinement loop relies on, so the table is a list. -/
def errorPatterns : List (String × CanvasErrorType) :=
  [ ("401", CanvasErrorType.unauthorized)
  , ("403", CanvasErrorType.forbidden)
  , ("404", CanvasErrorType.notFound)
  , ("400", CanvasErrorType.badRequest)
  , ("409", CanvasErrorType.conflict)
  , ("422", CanvasErrorType.validationError)
  , ("429", CanvasErrorType.rateLimited)
  , ("500", CanvasErrorType.serverError)
  , ("502", CanvasErrorType.gatewayError)
  , ("503", CanvasErrorType.serviceUnavailable)
  , ("504", CanvasErrorType.gatewayError)
  , ("maintenance", CanvasErrorType.canvasMaintenance)
  , ("temporarily unavailable", CanvasErrorType.serviceUnavailable)
  , ("rate limit", CanvasErrorType.rateLimited)
  , ("token expired", CanvasErrorType.tokenExpired)
  , ("invalid token", CanvasErrorType.unauthorized)
  , ("insufficient privileges", CanvasErrorType.forbidden)
  , ("feature not enabled", CanvasErrorType.canvasFeatureDisabled)
  , ("overloaded", CanvasErrorType.canvasOverloaded)
  , ("timeout", CanvasErrorType.networkTimeout)
  , ("connection", CanvasErrorType.networkConnection)
  , ("dns", CanvasErrorType.networkConnection) ]

/-- One entry of the `_initialize_retry_configs` table
(canvas_error_handler.py, lines 140-228).  Some entries (the NO_RETRY ones
and TOKEN_EXPIRED) carry no base/max delay, hence the `Option` fields. -/
structure RetryConfigEntry where
  strategy : RetryStrategyM
  max_retries : ℕ
  base_delay : Option ℚ := none
  max_delay : Option ℚ := none
deriving DecidableEq, Repr

/-- `_initialize_retry_configs`: per-kind static retry policy.  CONFLICT and
UNKNOWN have no entry in the source dict, hence `none`. -/
def retryConfigs : CanvasErrorType → Option RetryConfigEntry
  | CanvasErrorType.networkTimeout =>
      some ⟨RetryStrategyM.exponentialBackoff, 5, some 2, some 60⟩
  | CanvasErrorType.networkConnection =>
      some ⟨RetryStrategyM.exponentialBackoff, 3, some 1, some 30⟩
  | CanvasErrorType.serverError =>
      some ⟨RetryStrategyM.exponentialBackoff, 3, some 5, some 120⟩
  | CanvasErrorType.gatewayError =>
      some ⟨RetryStrategyM.linearBackoff, 3, some 10, some 60⟩
  | CanvasErrorType.serviceUnavailable =>
      some ⟨RetryStrategyM.exponentialBackoff, 5, some 30, some 300⟩
  | CanvasErrorType.rateLimited =>
      some ⟨RetryStrategyM.rateLimitBackoff, 10, some 60, some 900⟩
  | CanvasErrorType.canvasMaintenance =>
      some ⟨RetryStrategyM.linearBackoff, 3, some 300, some 1800⟩
  | CanvasErrorType.canvasOverloaded =>
      some ⟨RetryStrategyM.exponentialBackoff, 5, some 60, some 600⟩
  | CanvasErrorType.unauthorized =>
      some ⟨RetryStrategyM.noRetry, 0, none, none⟩
  | CanvasErrorType.forbidden =>
      some ⟨RetryStrategyM.noRetry, 0, none, none⟩
  | CanvasErrorType.notFound =>
      some ⟨RetryStrategyM.noRetry, 0, none, none⟩
  | CanvasErrorType.badRequest =>
      some ⟨RetryStrategyM.noRetry, 0, none, none⟩
  | CanvasErrorType.validationError =>
      some ⟨RetryStrategyM.noRetry, 0, none, none⟩
  | CanvasErrorType.canvasFeatureDisabled =>
      some ⟨RetryStrategyM.noRetry, 0, none, none⟩
  | CanvasErrorType.tokenExpired =>
      some ⟨RetryStrategyM.immediateRetry, 1, none, none⟩
  | CanvasErrorType.conflict => none
  | CanvasErrorType.unknown => none

/-- `_get_error_type_from_status` (lines 343-346): dict lookup of the
stringified status code, defaulting to UNKNOWN. -/
def getErrorTypeFromStatus (status : ℕ) : CanvasErrorType :=
  ((errorPatterns.find? (fun p => p.1 = toString status)).map Prod.snd).getD
    CanvasErrorType.unknown

/-- Whether the first character list is a leading segment of the second. -/
def charsStartWith : List Char → List Char → Bool
  | [], _ => true
  | _ :: _, [] => false
  | a :: pa, b :: bs => decide (a = b) && charsStartWith pa bs

/-- The Python `pattern in content` substring test, on character lists. -/
def charsContains (pat : List Char) : List Char → Bool
  | [] => pat.isEmpty
  | b :: bs => charsStartWith pat (b :: bs) || charsContains pat bs

/-- `_refine_error_type_from_content` (lines 348-356): the first pattern that
is a substring of the (lowercased) content, maps to a different kind than the
status-derived one, and is longer than 3 characters, wins; otherwise the
initial kind stands. -/
def refineErrorType (initial : CanvasErrorType) (content : String) : CanvasErrorType :=
  match errorPatterns.find? (fun p =>
      charsContains p.1.toList content.toList
        && decide (p.2 ≠ initial) && decide (3 < p.1.length)) with
  | some p => p.2
  | none => initial

/-- An HTTP response as `_classify_http_error` consumes it: status code, the
optional body text, and the already-parsed Retry-After header
(`_extract_retry_after` turns the header string into seconds). -/
structure HttpResponseM where
  status : ℕ
  body : Option String := none
  retryAfterHeader : Option ℤ := none

/-- The `CanvasError` dataclass (lines 65-83) restricted to the fields the
claims speak about; the two message strings and the context dict are
omitted. -/
structure CanvasErrorM where
  error_type : CanvasErrorType
  http_status : Option ℕ
  retry_strategy : RetryStrategyM
  retry_after : Option ℤ := none
  max_retries : ℕ := 3
  recoverable : Bool := true
deriving DecidableEq, Repr

/-- `_is_recoverable` (lines 411-421). -/
def isRecoverable (t : CanvasErrorType) : Bool :=
  !(t = CanvasErrorType.forbidden || t = CanvasErrorType.notFound
    || t = CanvasErrorType.badRequest || t = CanvasErrorType.validationError
    || t = CanvasErrorType.canvasFeatureDisabled)

/-- The Python `str.lower()`, character by character. -/
def strToLower (s : String) : String := String.mk (s.data.map Char.toLower)

/-- The error kind `_classify_http_error` ends up with: the status-table kind,
refined by the body content when a non-empty body is available. -/
def classifiedHttpType (status : ℕ) (body : Option String) : CanvasErrorType :=
  let initial := getErrorTypeFromStatus status
  match body with
  | some s => if s = "" then initial else refineErrorType initial (strToLower s)
  | none => initial

/-- `_classify_http_error` (lines 256-303). -/
def classifyHttpError (resp : HttpResponseM) : CanvasErrorM :=
  let errorType := classifiedHttpType resp.status resp.body
  let cfg := retryConfigs errorType
  { error_type := errorType
    http_status := some resp.status
    retry_strategy := (cfg.map RetryConfigEntry.strategy).getD RetryStrategyM.noRetry
    retry_after :=
      if errorType = CanvasErrorType.rateLimited then resp.retryAfterHeader else none
    max_retries := (cfg.map RetryConfigEntry.max_retries).getD 0
    recoverable := isRecoverable errorType }

/-- `should_retry` (lines 473-478). -/
def shouldRetry (e : CanvasErrorM) (attempt : ℕ) : Bool :=
  if e.retry_strategy = RetryStrategyM.noRetry then false
  else decide (attempt ≤ e.max_retries)

/-- The `RetryContext` dataclass (lines 86-94), with the error it wraps. -/
structure RetryContextM where
  attempt : ℕ
  max_attempts : ℕ
  last_error : CanvasErrorM
  base_delay : ℚ := 1
  max_delay : ℚ := 60
  jitter : Bool := true

/-- `calculate_retry_delay` (lines 436-471).  The call to `random.random()`
is made explicit as the argument `r ∈ [0,1)`: the jitter factor applied is
`0.5 + 0.5 * r`.  The source is an exhaustive if/elif chain over the
strategy enum, rendered here as one match; `finish` is the common tail
(jitter, then the `min` cap), which the NO_RETRY and IMMEDIATE_RETRY
branches skip by returning early, exactly as in the source.  The source's
dead `else: delay = base_delay` arm is unreachable for enum values. -/
def calculateRetryDelay (ctx : RetryContextM) (r : ℚ) : ℚ :=
  let cfg := retryConfigs ctx.last_error.error_type
  let base := ((cfg.bind RetryConfigEntry.base_delay).getD ctx.base_delay)
  let maxd := ((cfg.bind RetryConfigEntry.max_delay).getD ctx.max_delay)
  let finish := fun (delay : ℚ) =>
    min (if ctx.jitter then delay * (1/2 + 1/2 * r) else delay) maxd
  match ctx.last_error.retry_strategy with
  | RetryStrategyM.noRetry => 0
  | RetryStrategyM.immediateRetry => 1/10
  | RetryStrategyM.linearBackoff => finish (base * ctx.attempt)
  | RetryStrategyM.exponentialBackoff => finish (base * 2 ^ (ctx.attempt - 1))
  | RetryStrategyM.rateLimitBackoff =>
      match ctx.last_error.retry_after with
      | some ra => finish (ra : ℚ)
      | none => finish (base * (3/2) ^ (ctx.attempt - 1))

/-- The eleven status codes of the spec sentence about the status table. -/
def listedStatuses : List ℕ := [400, 401, 403, 404, 409, 422, 429, 500, 502, 503, 504]

/-! ### Rate limiter: `app/core/rate_limiter.py`

The Redis sorted sets behind the four windows are modelled as association
lists from members to scores.  A member is the request id string
`f"{current_time}:{task_name}"`; since that string determines and is
determined by the (timestamp, caller-task) pair, a member is modelled as
such a pair.  Each Redis pipeline `execute()` is one atomic step; the await
boundaries between pipelines are where concurrent callers interleave. -/

/-- A member of a Redis sorted set: the request id `time:taskName`. -/
abbrev RMember := ℤ × ℕ

/-- A Redis sorted set: members with scores (here scores are timestamps).
Timestamps are modelled as integers: the limiter only subtracts the
constants 60 and 3600 from them and compares them, so any float trace can
be rescaled to an integer one without changing any outcome. -/
abbrev ZSet := List (RMember × ℤ)

/-- Redis ZADD: update the score of an existing member, else append. -/
def zadd (z : ZSet) (mem : RMember) (score : ℤ) : ZSet :=
  if z.any (fun e => e.1 = mem) then
    z.map (fun e => if e.1 = mem then (mem, score) else e)
  else z ++ [(mem, score)]

/-- Redis ZREMRANGEBYSCORE key lo hi: drop members with score in [lo, hi]. -/
def zremrangebyscore (z : ZSet) (lo hi : ℤ) : ZSet :=
  z.filter (fun e => !(decide (lo ≤ e.2) && decide (e.2 ≤ hi)))

/-- The four key families the limiter touches: the two per-user windows and
the two global windows (`canvas_rate_limit:user:{id}:minute` etc.). -/
structure RedisStore where
  userMinute : String → ZSet
  userHour : String → ZSet
  globalMinute : ZSet
  globalHour : ZSet

/-- Pointwise update of a keyed family of sorted sets. -/
def updf (f : String → ZSet) (k : String) (v : ZSet) : String → ZSet :=
  fun x => if x = k then v else f x

/-- The store with no recorded requests. -/
def emptyStore : RedisStore :=
  ⟨fun _ => [], fun _ => [], [], []⟩

/-- `RateLimitConfig` dataclass (rate_limiter.py, lines 24-31), with its
source defaults. -/
structure RateLimitConfigM where
  requests_per_minute : ℕ := 180
  requests_per_hour : ℕ := 4800
  burst_allowance : ℕ := 10
  safety_margin : ℚ := 1/10
  window_size : ℕ := 60

/-- The configuration `ProductionCanvasRateLimiter.__init__` builds. -/
def defaultRateConfig : RateLimitConfigM := {}

/-- `RateLimitStatus` dataclass (lines 34-42). -/
structure RateLimitStatusM where
  allowed : Bool
  remaining_requests : ℤ
  reset_time : ℤ
  retry_after : Option ℤ := none
  current_usage : ℕ := 0
  hourly_usage : ℕ := 0
deriving Repr

/-- Per-endpoint entry of `self.canvas_endpoints` (lines 65-74). -/
structure EndpointConfig where
  weight : ℕ
  cacheable : Bool
  ttl : ℕ
deriving DecidableEq, Repr

/-- The `canvas_endpoints` table built in `__init__` (lines 65-74). -/
def canvasEndpoints : String → Option EndpointConfig
  | "courses" => some ⟨1, true, 300⟩
  | "assignments" => some ⟨1, true, 180⟩
  | "pages" => some ⟨1, true, 180⟩
  | "quizzes" => some ⟨2, true, 120⟩
  | "discussions" => some ⟨1, true, 120⟩
  | "modules" => some ⟨1, true, 300⟩
  | "files" => some ⟨3, false, 0⟩
  | "submissions" => some ⟨2, false, 0⟩
  | _ => none

/-- First atomic step of `_check_user_rate_limit` (lines 156-174): one Redis
pipeline that prunes both per-user windows and reads their cardinalities.
The TTL bookkeeping (`expire`) has no effect within a run and is omitted. -/
def userCheckPipeline (u : String) (now : ℤ) (s : RedisStore) :
    (ℕ × ℕ) × RedisStore :=
  let mz := zremrangebyscore (s.userMinute u) 0 (now - 60)
  let hz := zremrangebyscore (s.userHour u) 0 (now - 3600)
  ((mz.length, hz.length),
   { s with userMinute := updf s.userMinute u mz, userHour := updf s.userHour u hz })

/-- `_record_request` (lines 242-262): a second, separate pipeline.  The loop
body recomputes the same request id `f"{current_time}:{task_name}"` on every
iteration, so all `weight` ZADDs use one member. -/
def recordRequest (u : String) (caller : ℕ) (weight : ℕ) (now : ℤ)
    (s : RedisStore) : RedisStore :=
  (fun st =>
    { st with
      userMinute := updf st.userMinute u (zadd (st.userMinute u) (now, caller) now)
      userHour := updf st.userHour u (zadd (st.userHour u) (now, caller) now)
      globalMinute := zadd st.globalMinute (now, caller) now
      globalHour := zadd st.globalHour (now, caller) now })^[weight] s

/-- `_check_user_rate_limit` (lines 146-194): the check pipeline, then — only
when both windows admit the weighted request — the recording pipeline. -/
def userRateCheck (cfg : RateLimitConfigM) (u : String) (caller : ℕ)
    (weight : ℕ) (now : ℤ) (s : RedisStore) : RateLimitStatusM × RedisStore :=
  let r := userCheckPipeline u now s
  let minuteCount := r.1.1
  let hourCount := r.1.2
  let minuteAllowed := decide (minuteCount + weight ≤ cfg.requests_per_minute)
  let hourAllowed := decide (hourCount + weight ≤ cfg.requests_per_hour)
  let s2 := if minuteAllowed && hourAllowed then
      recordRequest u caller weight now r.2
    else r.2
  ({ allowed := minuteAllowed && hourAllowed
     remaining_requests :=
       min ((cfg.requests_per_minute : ℤ) - minuteCount)
           ((cfg.requests_per_hour : ℤ) - hourCount)
     reset_time := now + (if !minuteAllowed then 60 else 3600)
     retry_after :=
       if !minuteAllowed then some 60
       else if !hourAllowed then some 3600 else none
     current_usage := minuteCount
     hourly_usage := hourCount }, s2)

/-- `_check_global_rate_limit` (lines 196-240): prune and count the global
windows against the ×10 limits; no recording. -/
def globalRateCheck (cfg : RateLimitConfigM) (weight : ℕ) (now : ℤ)
    (s : RedisStore) : RateLimitStatusM × RedisStore :=
  let mz := zremrangebyscore s.globalMinute 0 (now - 60)
  let hz := zremrangebyscore s.globalHour 0 (now - 3600)
  let minuteCount := mz.length
  let hourCount := hz.length
  let gml := cfg.requests_per_minute * 10
  let ghl := cfg.requests_per_hour * 10
  let minuteAllowed := decide (minuteCount + weight ≤ gml)
  let hourAllowed := decide (hourCount + weight ≤ ghl)
  ({ allowed := minuteAllowed && hourAllowed
     remaining_requests := min ((gml : ℤ) - minuteCount) ((ghl : ℤ) - hourCount)
     reset_time := now + (if !minuteAllowed then 60 else 3600)
     retry_after :=
       if !minuteAllowed then some 60
       else if !hourAllowed then some 3600 else none
     current_usage := minuteCount
     hourly_usage := hourCount }, { s with globalMinute := mz, globalHour := hz })

/-- The body of `check_rate_limit` after the endpoint weight is resolved
(lines 112-133): user check (which records when it admits), then global
check, then the most restrictive combination. -/
def checkRateLimitCore (cfg : RateLimitConfigM) (u : String) (weight : ℕ)
    (caller : ℕ) (now : ℤ) (s : RedisStore) : RateLimitStatusM × RedisStore :=
  let ur := userRateCheck cfg u caller weight now s
  let gr := globalRateCheck cfg weight now ur.2
  let us := ur.1
  let gs := gr.1
  if !us.allowed || !gs.allowed then
    ({ allowed := false
       remaining_requests := min us.remaining_requests gs.remaining_requests
       reset_time := max us.reset_time gs.reset_time
       retry_after := some (max (us.retry_after.getD 0) (gs.retry_after.getD 0))
       current_usage := max us.current_usage gs.current_usage
       hourly_usage := max us.hourly_usage gs.hourly_usage }, gr.2)
  else
    ({ allowed := true
       remaining_requests := min us.remaining_requests gs.remaining_requests
       reset_time := max us.reset_time gs.reset_time
       retry_after := none
       current_usage := max us.current_usage gs.current_usage
       hourly_usage := max us.hourly_usage gs.hourly_usage }, gr.2)

/-- `check_rate_limit` (lines 88-144): endpoint weight resolution
`endpoint_config = self.canvas_endpoints.get(endpoint, {"weight": weight})`
followed by the core.  The fail-open exception branch concerns an
unreachable backing store and is outside this model. -/
def checkRateLimit (cfg : RateLimitConfigM) (u : String) (endpoint : String)
    (weight : ℕ) (caller : ℕ) (now : ℤ) (s : RedisStore) :
    RateLimitStatusM × RedisStore :=
  let actualWeight :=
    match canvasEndpoints endpoint with
    | some ec => ec.weight
    | none => weight
  checkRateLimitCore cfg u actualWeight caller now s

/-- Number of entries of a window lying inside the trailing `w` seconds. -/
def countInWindow (z : ZSet) (now w : ℤ) : ℕ :=
  (z.filter (fun e => decide (now - w < e.2))).length

/-- A window holding `n` distinct already-admitted weight-1 requests, all
timestamped `now` (members `(now, 0) … (now, n-1)`). -/
def entriesAt (now : ℤ) (n : ℕ) : ZSet :=
  (List.range n).map (fun i => ((now, i), now))

/-- Store in which user `u1` (and the global windows) hold 179 in-window
requests — one below the per-user minute limit of 180. -/
def store179 : RedisStore :=
  { userMinute := fun _ => entriesAt 1000 179
    userHour := fun _ => entriesAt 1000 179
    globalMinute := entriesAt 1000 179
    globalHour := entriesAt 1000 179 }

/-- The interleaving of two concurrent weight-1 callers A (task 500) and
B (task 501) racing on user `u1` at time 1000: both check pipelines execute
before either recording pipeline, which the engine permits because
`_check_user_rate_limit` awaits two separate Redis round-trips. -/
def raceTrace : (Bool × Bool) × RedisStore :=
  let ra := userCheckPipeline ("u1") 1000 store179
  let allowedA := decide (ra.1.1 + 1 ≤ defaultRateConfig.requests_per_minute)
      && decide (ra.1.2 + 1 ≤ defaultRateConfig.requests_per_hour)
  let rb := userCheckPipeline ("u1") 1000 ra.2
  let allowedB := decide (rb.1.1 + 1 ≤ defaultRateConfig.requests_per_minute)
      && decide (rb.1.2 + 1 ≤ defaultRateConfig.requests_per_hour)
  let s3 := if allowedA then recordRequest ("u1") 500 1 1000 rb.2 else rb.2
  let s4 := if allowedB then recordRequest ("u1") 501 1 1000 s3 else s3
  ((allowedA, allowedB), s4)

/-- Store in which the global minute window is exactly at the global limit
(180 × 10 = 1800 in-window requests) while user `u1` has none. -/
def storeGlobalFull : RedisStore :=
  { userMinute := fun _ => []
    userHour := fun _ => []
    globalMinute := entriesAt 1000 1800
    globalHour := entriesAt 1000 1800 }

/-! ### Execution engine: `app/qa_framework/base/execution_engine.py`
and the `QAExecution` methods of `data_models.py`.

`_execute_task_background` is one sequential coroutine per execution; the
task implementation it drives is abstracted as a `TaskBehavior` giving the
outcome of each collaborator call (registry lookup, `validate_config`,
`pre_execute`, the timed main body, `post_execute`).  The two reads of
`self._cancellation_tokens` are the engine's only cancellation checkpoints;
their values enter as the two booleans `c1`, `c2`. -/

/-- `TaskStatus` enum (data_models.py, lines 17-23). -/
inductive TaskStatusM where
  | pending
  | running
  | completed
  | failed
  | cancelled
deriving DecidableEq, Repr

/-- The `QATaskError` subclass an error reaching `_handle_task_error` has
(qa_task.py, lines 293-319). -/
inductive QAErrorKind where
  | execError
  | timeoutError
  | taskError
deriving DecidableEq, Repr

/-- Outcome of `asyncio.wait_for(task_instance.execute(...), timeout)`:
a result (whose `status` field `complete_execution` later copies), a
timeout, a typed `QATaskError` from the body, or any other exception. -/
inductive BodyOutcome where
  | completes (resultStatus : TaskStatusM)
  | timesOut
  | raisesQA (kind : QAErrorKind) (msg : String)
  | raisesOther (msg : String)
deriving DecidableEq, Repr

/-- The collaborators of one `_execute_task_background` run. `postStatus`
is the status field of the result returned by `post_execute` given the
status field of the body result. -/
structure TaskBehavior where
  registered : Bool
  validConfig : Bool
  preOk : Bool
  body : BodyOutcome
  postStatus : TaskStatusM → TaskStatusM

/-- What one background run leaves behind: the execution's final status,
the error `_handle_task_error` handled (if any), and whether the main body
was started. -/
structure ExecOutcome where
  status : TaskStatusM
  handledError : Option (QAErrorKind × String)
  bodyRan : Bool
deriving DecidableEq, Repr

/-- `_handle_task_error` (execution_engine.py, lines 254-280):
`execution.fail_execution(str(error), ...)` marks the execution FAILED; the
`on_error` hook is fire-and-forget and leaves the status alone. -/
def handleTaskError (kind : QAErrorKind) (msg : String) (bodyRan : Bool) :
    ExecOutcome :=
  ⟨TaskStatusM.failed, some (kind, msg), bodyRan⟩

/-- `_execute_task_background` (execution_engine.py, lines 156-252).
`c1` and `c2` are the two `task_id in self._cancellation_tokens` reads
(lines 195 and 222).  Raising `QATaskExecutionError` is modelled by jumping
to `handleTaskError QAErrorKind.execError`, which the
`except QATaskError` handler performs. -/
def executeBackground (beh : TaskBehavior) (c1 c2 : Bool) : ExecOutcome :=
  -- execution.start_execution(): status := RUNNING
  if !beh.registered then
    handleTaskError QAErrorKind.execError ("Task type not found") false
  else if !beh.validConfig then
    handleTaskError QAErrorKind.execError ("Configuration validation failed") false
  else if c1 then
    -- on_cancel → ProgressTracker.update_status(CANCELLED); early return
    ⟨TaskStatusM.cancelled, none, false⟩
  else if !beh.preOk then
    handleTaskError QAErrorKind.execError ("Pre-execution check failed") false
  else
    match beh.body with
    | BodyOutcome.timesOut =>
        -- asyncio.TimeoutError is re-raised as QATaskTimeoutError
        handleTaskError QAErrorKind.timeoutError ("Task execution timed out") true
    | BodyOutcome.raisesQA kind msg => handleTaskError kind msg true
    | BodyOutcome.raisesOther msg =>
        -- wrapped into QATaskExecutionError("Unexpected error ...")
        handleTaskError QAErrorKind.execError msg true
    | BodyOutcome.completes rs =>
        if c2 then ⟨TaskStatusM.cancelled, none, true⟩
        else
          -- post_execute, then complete_execution: status := result.status
          ⟨beh.postStatus rs, none, true⟩

/-- One entry of the engine's `_active_executions` dict, restricted to the
status field that `cancel_execution`, `complete_execution` and
`fail_execution` mutate; the other `QAExecution` fields (config,
timestamps, progress history) are carried by no claim. -/
structure ExecutionRec where
  status : TaskStatusM
deriving DecidableEq, Repr

/-- The engine state `cancel_execution` touches: `_active_executions` as an
association list and `_cancellation_tokens` as a list-set. -/
structure EngineState where
  active : List (String × ExecutionRec)
  tokens : List String
deriving DecidableEq, Repr

/-- Dict lookup in `_active_executions`. -/
def lookupExec : List (String × ExecutionRec) → String → Option ExecutionRec
  | [], _ => none
  | p :: rest, tid => if p.1 = tid then some p.2 else lookupExec rest tid

/-- `cancel_execution` (execution_engine.py, lines 342-368): unknown ids get
`False`; otherwise the id joins the cancellation tokens, the execution's
status is set to CANCELLED unconditionally, the background asyncio task is
cancelled (outside this state), and `True` is returned. -/
def cancelExecution (s : EngineState) (tid : String) : Bool × EngineState :=
  if (lookupExec s.active tid).isNone then (false, s)
  else
    let tokens := if tid ∈ s.tokens then s.tokens else tid :: s.tokens
    let active := s.active.map (fun p =>
      if p.1 = tid then (p.1, ExecutionRec.mk TaskStatusM.cancelled) else p)
    (true, ⟨active, tokens⟩)

/-! ### Progress broadcaster: `app/qa_framework/utils/progress_tracker.py` -/

/-- `_notify_task_subscribers` (progress_tracker.py, lines 114-129).
Subscriber callbacks are abstracted to ids with a failure oracle
(`fails c = true` ⟺ calling `c` on this update raises).  The loop walks a
snapshot (`list(self._task_subscribers[task_id])`) of the live set `live`;
a raising callback is caught, logged, and discarded from the live set, and
the loop continues.  Returns (subscribers the update was delivered to, in
delivery order; the live set afterwards). -/
def notifySubscribers (fails : ℕ → Bool) :
    List ℕ → List ℕ → List ℕ × List ℕ
  | [], live => ([], live)
  | c :: rest, live =>
      if fails c then notifySubscribers fails rest (live.erase c)
      else
        let r := notifySubscribers fails rest live
        (c :: r.1, r.2)

/-- `broadcast_progress` restricted to a task's subscriber set: the snapshot
taken at entry is the live set itself. -/
def broadcastToTask (fails : ℕ → Bool) (subs : List ℕ) : List ℕ × List ℕ :=
  notifySubscribers fails subs subs

/-! ### Concrete instances the theorems evaluate the model at -/

/-- The classified error of a bare 502 response (kind GATEWAY_ERROR,
strategy LINEAR_BACKOFF, base 10, max 60). -/
def gatewayErrExample : CanvasErrorM := classifyHttpError ⟨502, none, none⟩

/-- A full `check_rate_limit` run that the global minute window denies:
user `u1` has an empty history, the global minute window is at its limit. -/
def deniedRun : RateLimitStatusM × RedisStore :=
  checkRateLimit defaultRateConfig ("u1") ("default") 1 5000 1000 storeGlobalFull

/-- A task whose collaborators all behave, except that `pre_execute`
returns `False`. -/
def preHookFalseBehavior : TaskBehavior :=
  ⟨true, true, false, BodyOutcome.completes TaskStatusM.completed, id⟩

/-- A task whose main body exceeds `config.timeout_seconds`. -/
def timeoutBehavior : TaskBehavior :=
  ⟨true, true, true, BodyOutcome.timesOut, id⟩

/-- An engine state holding an execution that already reached the terminal
status COMPLETED but has not yet been evicted by `_cleanup_execution`. -/
def staleCompletedState : EngineState :=
  ⟨[(("t1"), ExecutionRec.mk TaskStatusM.completed)], []⟩

/-- An engine state holding one PENDING execution. -/
def pendingState : EngineState :=
  ⟨[(("t2"), ExecutionRec.mk TaskStatusM.pending)], []⟩

/-- The subscriber-failure oracle in which exactly subscriber 2 raises. -/
def failsOnlyTwo : ℕ → Bool := fun c => decide (c = 2)

/-! ### Theorems -/

set_option maxRecDepth 200000

/-- C3 counterexample: the status-code table is not injective on the eleven
listed statuses — 502 and 504 are distinct statuses mapped to the same
kind, GATEWAY_ERROR. -/
theorem statusTable_gateway_collision :
    getErrorTypeFromStatus 502 = getErrorTypeFromStatus 504 ∧
    getErrorTypeFromStatus 502 = CanvasErrorType.gatewayError ∧
    (502 : ℕ) ≠ 504 := by decide

/-- C3 (amended): the status-code table maps the ten listed statuses other
than 504 to pairwise distinct kinds, while 504 shares GATEWAY_ERROR
with 502. -/
theorem statusTable_injective_except504 :
    ((listedStatuses.filter (fun s => decide (s ≠ 504))).map
        getErrorTypeFromStatus).Pairwise (· ≠ ·) ∧
    getErrorTypeFromStatus 504 = getErrorTypeFromStatus 502 := by decide

/-- C1: two concurrent weight-1 callers race on user `u1` whose minute
window holds 179 of the 180 admitted requests.  Because
`_check_user_rate_limit` reads the window count and records the request in
two separate Redis round-trips, the interleaving check-A, check-B,
record-A, record-B admits both callers and leaves 181 requests inside the
rolling 60-second window — over the configured limit.  Check and record do
not behave as one atomic operation per key. -/
theorem rateLimiter_race_over_admission :
    raceTrace.1.1 = true ∧ raceTrace.1.2 = true ∧
    defaultRateConfig.requests_per_minute <
      countInWindow (raceTrace.2.userMinute ("u1")) 1000 60 := by decide

/-- C2: a request denied by the global minute window (1800 of 1800 slots
used) is nevertheless recorded: `_check_user_rate_limit` records into all
four windows as soon as the two per-user windows admit, before
`_check_global_rate_limit` runs, so `check_rate_limit` returns
`allowed=false` while every one of the four windows has gained the denied
request's entry. -/
theorem rateLimiter_records_denied_request :
    deniedRun.1.allowed = false ∧
    countInWindow (deniedRun.2.userMinute ("u1")) 1000 60 = 1 ∧
    countInWindow (deniedRun.2.userHour ("u1")) 1000 3600 = 1 ∧
    storeGlobalFull.globalMinute.length = 1800 ∧
    deniedRun.2.globalMinute.length = 1801 ∧
    deniedRun.2.globalHour.length = 1801 := by decide

/-- C10: for an endpoint present in the `canvas_endpoints` table,
`check_rate_limit` uses the table weight for the whole check-and-record
core and the caller-supplied weight argument is ignored; for an endpoint
outside the table the caller's weight is the one used.  The table carries
weight 2 for `quizzes` and 3 for `files`. -/
theorem checkRateLimit_table_weight_priority :
    (∀ (cfg : RateLimitConfigM) (u ep : String) (ec : EndpointConfig)
        (w w' caller : ℕ) (now : ℤ) (s : RedisStore),
      canvasEndpoints ep = some ec →
      checkRateLimit cfg u ep w caller now s
          = checkRateLimitCore cfg u ec.weight caller now s ∧
      checkRateLimit cfg u ep w caller now s
          = checkRateLimit cfg u ep w' caller now s) ∧
    (∀ (cfg : RateLimitConfigM) (u ep : String) (w caller : ℕ)
        (now : ℤ) (s : RedisStore),
      canvasEndpoints ep = none →
      checkRateLimit cfg u ep w caller now s
          = checkRateLimitCore cfg u w caller now s) ∧
    (canvasEndpoints ("quizzes")).map EndpointConfig.weight = some 2 ∧
    (canvasEndpoints ("files")).map EndpointConfig.weight = some 3 := by
  refine ⟨?_, ?_, rfl, rfl⟩
  · intro cfg u ep ec w w' caller now s h
    constructor <;> simp [checkRateLimit, h]
  · intro cfg u ep w caller now s h
    simp [checkRateLimit, h]

/-- C10 witness: at the table endpoint `quizzes` the caller weights 1 and 7
produce identical outcomes, and at the unknown endpoint `custom` the
caller weight 4 is the one the core runs with. -/
theorem checkRateLimit_table_weight_priority_w :
    checkRateLimit defaultRateConfig ("u1") ("quizzes") 1 0 1000 emptyStore
      = checkRateLimit defaultRateConfig ("u1") ("quizzes") 7 0 1000 emptyStore ∧
    checkRateLimit defaultRateConfig ("u1") ("custom") 4 0 1000 emptyStore
      = checkRateLimitCore defaultRateConfig ("u1") 4 0 1000 emptyStore :=
  ⟨(checkRateLimit_table_weight_priority.1 defaultRateConfig ("u1") ("quizzes")
      ⟨2, true, 120⟩ 1 7 0 1000 emptyStore rfl).2,
   checkRateLimit_table_weight_priority.2.1 defaultRateConfig ("u1") ("custom")
      4 0 1000 emptyStore rfl⟩

/-- C4 counterexample: the body-keyword refinement step overrides the
status-derived classification, so the claim fails for non-trivial bodies.
A 503 whose body mentions maintenance is classified CANVAS_MAINTENANCE
with LINEAR (not exponential) backoff, and a 404 whose body mentions a
connection timeout is classified NETWORK_TIMEOUT and is retryable. -/
theorem classify_refinement_overrides :
    (classifyHttpError ⟨503, some ("down for maintenance"), none⟩).retry_strategy
        = RetryStrategyM.linearBackoff ∧
    (classifyHttpError ⟨503, some ("down for maintenance"), none⟩).retry_strategy
        ≠ RetryStrategyM.exponentialBackoff ∧
    shouldRetry (classifyHttpError ⟨404, some ("connection timeout"), none⟩) 1
        = true := by decide

/-- C4 (amended): whenever the body refinement leaves the status-derived
kind in place — in particular for responses with no or an empty body — a
503 classifies as retryable SERVICE_UNAVAILABLE with exponential backoff
and max retries 5 ≥ 3, and a 404 classifies as NOT_FOUND and is never
retried. -/
theorem classify_503_404_unrefined :
    ∀ (body : Option String) (ra : Option ℤ),
      (classifiedHttpType 503 body = CanvasErrorType.serviceUnavailable →
        (classifyHttpError ⟨503, body, ra⟩).retry_strategy
            = RetryStrategyM.exponentialBackoff ∧
        3 ≤ (classifyHttpError ⟨503, body, ra⟩).max_retries ∧
        ∀ a : ℕ, a ≤ 3 → shouldRetry (classifyHttpError ⟨503, body, ra⟩) a = true) ∧
      (classifiedHttpType 404 body = CanvasErrorType.notFound →
        ∀ a : ℕ, shouldRetry (classifyHttpError ⟨404, body, ra⟩) a = false) := by
  intro body ra
  constructor
  · intro h
    have hs : (classifyHttpError ⟨503, body, ra⟩).retry_strategy
        = ((retryConfigs (classifiedHttpType 503 body)).map
            RetryConfigEntry.strategy).getD RetryStrategyM.noRetry := rfl
    have hm : (classifyHttpError ⟨503, body, ra⟩).max_retries
        = ((retryConfigs (classifiedHttpType 503 body)).map
            RetryConfigEntry.max_retries).getD 0 := rfl
    rw [h] at hs hm
    simp [retryConfigs] at hs hm
    refine ⟨hs, by rw [hm]; decide, ?_⟩
    intro a ha
    simp [shouldRetry, hs, hm]
    omega
  · intro h
    intro a
    have hs : (classifyHttpError ⟨404, body, ra⟩).retry_strategy
        = ((retryConfigs (classifiedHttpType 404 body)).map
            RetryConfigEntry.strategy).getD RetryStrategyM.noRetry := rfl
    rw [h] at hs
    simp [retryConfigs] at hs
    simp [shouldRetry, hs]

/-- C4 witness: the amended theorem applied to the bodiless 503 and 404
responses. -/
theorem classify_503_404_unrefined_w :
    (classifyHttpError ⟨503, none, none⟩).retry_strategy
        = RetryStrategyM.exponentialBackoff ∧
    shouldRetry (classifyHttpError ⟨503, none, none⟩) 3 = true ∧
    shouldRetry (classifyHttpError ⟨404, none, none⟩) 1 = false :=
  ⟨((classify_503_404_unrefined none none).1 (by decide)).1,
   ((classify_503_404_unrefined none none).1 (by decide)).2.2 3 (by decide),
   (classify_503_404_unrefined none none).2 (by decide) 1⟩

/-- Helper: every max delay in the retry-config table is at least 1/10. -/
theorem retryConfigs_max_delay_ge (t : CanvasErrorType) (c : RetryConfigEntry)
    (m : ℚ) (h1 : retryConfigs t = some c) (h2 : c.max_delay = some m) :
    (1/10 : ℚ) ≤ m := by
  cases t <;> simp [retryConfigs] at h1 <;> subst h1 <;> simp at h2 <;>
    rw [← h2] <;> norm_num

/-- Helper: left multiplication by a nonnegative rational is monotone in a
natural-number factor. -/
theorem mulCast_le (B : ℚ) (hB : 0 ≤ B) {a a' : ℕ} (h : a ≤ a') :
    B * (a : ℚ) ≤ B * (a' : ℚ) :=
  mul_le_mul_of_nonneg_left (by exact_mod_cast h) hB

/-- Helper: powers of two are monotone in the shifted attempt counter. -/
theorem powTwo_le {a a' : ℕ} (h : a ≤ a') : (2 : ℚ) ^ (a - 1) ≤ 2 ^ (a' - 1) :=
  pow_le_pow_right₀ (by norm_num) (Nat.sub_le_sub_right h 1)

/-- C5 counterexample: the delay is drawn with a uniform jitter factor, so
for a LINEAR_BACKOFF classified error (a bare 502) the delay is not
non-decreasing in the attempt number: attempt 2 with jitter draw 0.9 gives
19, while attempt 3 with jitter draw 0 gives only 15. -/
theorem retryDelay_jitter_not_monotone :
    calculateRetryDelay ⟨3, 3, gatewayErrExample, 1, 60, true⟩ 0 <
    calculateRetryDelay ⟨2, 3, gatewayErrExample, 1, 60, true⟩ (9/10) := by
  have h : gatewayErrExample =
      ⟨CanvasErrorType.gatewayError, some 502, RetryStrategyM.linearBackoff,
        none, 3, true⟩ := by decide
  rw [h]
  norm_num [calculateRetryDelay, retryConfigs]

/-- C5 (amended): for a classified error whose kind's configured strategy is
linear or exponential backoff, the retry delay is non-decreasing in the
attempt number once the jitter flag is off (with jitter on, adjacent
uniform draws can make a linear-backoff delay decrease); and for every
error kind with a configured maxDelay the returned delay never exceeds
that maxDelay, under every strategy and any jitter draw. -/
theorem retryDelay_monotone_nojitter_and_capped :
    (∀ (n a a' : ℕ) (e : CanvasErrorM) (c : RetryConfigEntry) (b m r r' : ℚ),
      retryConfigs e.error_type = some c →
      c.strategy = e.retry_strategy →
      (e.retry_strategy = RetryStrategyM.linearBackoff ∨
        e.retry_strategy = RetryStrategyM.exponentialBackoff) →
      1 ≤ a → a ≤ a' →
      calculateRetryDelay ⟨a, n, e, b, m, false⟩ r
        ≤ calculateRetryDelay ⟨a', n, e, b, m, false⟩ r') ∧
    (∀ (ctx : RetryContextM) (r : ℚ) (c : RetryConfigEntry) (m : ℚ),
      retryConfigs ctx.last_error.error_type = some c →
      c.max_delay = some m →
      calculateRetryDelay ctx r ≤ m) := by
  constructor
  · intro n a a' e c b m r r' hcfg hcs hstrat h1 hle
    rcases hstrat with hS | hS <;>
      cases het : e.error_type <;>
      rw [het] at hcfg <;> simp [retryConfigs] at hcfg <;>
      (try subst hcfg) <;>
      first
      | (rw [hS] at hcs; exact absurd hcs (by decide))
      | (simp [calculateRetryDelay, hS, het, retryConfigs]
         exact Or.inl hle)
      | (simp [calculateRetryDelay, hS, het, retryConfigs]
         exact Or.inl (powTwo_le hle))
  · intro ctx r c m hcfg hm
    have h110 : (1/10 : ℚ) ≤ m :=
      retryConfigs_max_delay_ge ctx.last_error.error_type c m hcfg hm
    cases hS : ctx.last_error.retry_strategy
    case noRetry => simp [calculateRetryDelay, hS]; linarith
    case immediateRetry => simp [calculateRetryDelay, hS]; linarith
    case linearBackoff =>
      simp [calculateRetryDelay, hS, hcfg, hm]
    case exponentialBackoff =>
      simp [calculateRetryDelay, hS, hcfg, hm]
    case rateLimitBackoff =>
      cases hra : ctx.last_error.retry_after <;>
        simp [calculateRetryDelay, hS, hra, hcfg, hm]

/-- C5 witness: the amended theorem at the bare-502 LINEAR_BACKOFF error,
attempts 1 ≤ 2 with jitter off, and the cap at max delay 60 with jitter
on. -/
theorem retryDelay_monotone_nojitter_and_capped_w :
    calculateRetryDelay ⟨1, 3, gatewayErrExample, 1, 60, false⟩ 0
      ≤ calculateRetryDelay ⟨2, 3, gatewayErrExample, 1, 60, false⟩ 0 ∧
    calculateRetryDelay ⟨2, 3, gatewayErrExample, 1, 60, true⟩ (1/2) ≤ 60 := by
  have h : gatewayErrExample =
      ⟨CanvasErrorType.gatewayError, some 502, RetryStrategyM.linearBackoff,
        none, 3, true⟩ := by decide
  constructor
  · exact retryDelay_monotone_nojitter_and_capped.1 3 1 2 gatewayErrExample
      ⟨RetryStrategyM.linearBackoff, 3, some 10, some 60⟩ 1 60 0 0
      (by rw [h]; try rfl) (by rw [h]; try rfl) (Or.inl (by rw [h]; try rfl))
      (by norm_num) (by norm_num)
  · exact retryDelay_monotone_nojitter_and_capped.2
      ⟨2, 3, gatewayErrExample, 1, 60, true⟩ (1/2)
      ⟨RetryStrategyM.linearBackoff, 3, some 10, some 60⟩ 60 (by rw [h]; try rfl) rfl

/-- C6 counterexample: a pre-hook returning false is not a clean no-op —
the engine raises `QATaskExecutionError("Pre-execution check failed")` and
the execution ends in the FAILED state (the body is indeed never run). -/
theorem preHook_false_fails_execution :
    (executeBackground preHookFalseBehavior false false).status
        = TaskStatusM.failed ∧
    (executeBackground preHookFalseBehavior false false).bodyRan = false := by
  decide

/-- C6 (amended): when the pre-execution hook returns false (and the task
type is registered, the configuration valid, and no cancellation is
pending), the engine does not run the main body, but it aborts by raising
`QATaskExecutionError`, so the execution ends FAILED rather than as a
clean no-op. -/
theorem preHook_false_aborts_before_body :
    ∀ (beh : TaskBehavior) (c2 : Bool),
      beh.registered = true → beh.validConfig = true → beh.preOk = false →
      executeBackground beh false c2 =
        ⟨TaskStatusM.failed,
         some (QAErrorKind.execError, ("Pre-execution check failed")),
         false⟩ := by
  intro beh c2 h1 h2 h3
  simp [executeBackground, handleTaskError, h1, h2, h3]

/-- C6 witness: the amended theorem at the concrete behavior whose pre-hook
fails. -/
theorem preHook_false_aborts_before_body_w :
    executeBackground preHookFalseBehavior false true =
      ⟨TaskStatusM.failed,
       some (QAErrorKind.execError, ("Pre-execution check failed")),
       false⟩ :=
  preHook_false_aborts_before_body preHookFalseBehavior true rfl rfl rfl

/-- C7 counterexample: `cancel_execution` never inspects the status, so for
an execution that already reached the terminal status COMPLETED (but has
not yet been evicted from `_active_executions`) it returns `True` — not
`False` — and overwrites the terminal status with CANCELLED. -/
theorem cancel_overrides_terminal :
    lookupExec staleCompletedState.active ("t1")
        = some (ExecutionRec.mk TaskStatusM.completed) ∧
    (cancelExecution staleCompletedState ("t1")).1 = true ∧
    lookupExec (cancelExecution staleCompletedState ("t1")).2.active ("t1")
        = some (ExecutionRec.mk TaskStatusM.cancelled) := by decide

/-- Helper: looking up `tid` after the cancel update yields the cancelled
record exactly when `tid` was present. -/
theorem lookupExec_cancel_map (l : List (String × ExecutionRec)) (tid : String) :
    lookupExec (l.map (fun p =>
        if p.1 = tid then (p.1, ExecutionRec.mk TaskStatusM.cancelled) else p)) tid
      = (lookupExec l tid).map (fun _ => ExecutionRec.mk TaskStatusM.cancelled) := by
  induction l with
  | nil => rfl
  | cons p rest ih => by_cases hp : p.1 = tid <;> simp [lookupExec, hp, ih]

/-- C7 (amended): `cancel_execution` returns false exactly for task ids
absent from `_active_executions`; for any present execution — including one
whose status is already terminal — it returns true and unconditionally sets
the status to CANCELLED.  Terminal statuses are therefore not protected
against outgoing transitions while the entry remains in the map. -/
theorem cancelExecution_membership_spec :
    (∀ (s : EngineState) (tid : String),
      (cancelExecution s tid).1 = false ↔ lookupExec s.active tid = none) ∧
    (∀ (s : EngineState) (tid : String) (ex : ExecutionRec),
      lookupExec s.active tid = some ex →
      (cancelExecution s tid).1 = true ∧
      lookupExec (cancelExecution s tid).2.active tid
        = some (ExecutionRec.mk TaskStatusM.cancelled)) := by
  constructor
  · intro s tid
    cases h : lookupExec s.active tid <;> simp [cancelExecution, h]
  · intro s tid ex h
    simp [cancelExecution, h, lookupExec_cancel_map]

/-- C7 witness: the amended theorem at a state holding one PENDING
execution. -/
theorem cancelExecution_membership_spec_w :
    (cancelExecution pendingState ("t2")).1 = true ∧
    lookupExec (cancelExecution pendingState ("t2")).2.active ("t2")
      = some (ExecutionRec.mk TaskStatusM.cancelled) :=
  cancelExecution_membership_spec.2 pendingState ("t2")
    (ExecutionRec.mk TaskStatusM.pending) (by decide)

/-- C8: a main body that exceeds `config.timeout_seconds` raises
`asyncio.TimeoutError`, which the engine re-raises as `QATaskTimeoutError`;
`_handle_task_error` then marks the execution FAILED carrying that
timeout-kind error, and the execution never ends CANCELLED. -/
theorem timeout_ends_failed_with_timeout_kind :
    ∀ (beh : TaskBehavior) (c2 : Bool),
      beh.registered = true → beh.validConfig = true → beh.preOk = true →
      beh.body = BodyOutcome.timesOut →
      (executeBackground beh false c2).status = TaskStatusM.failed ∧
      (executeBackground beh false c2).handledError
        = some (QAErrorKind.timeoutError, ("Task execution timed out")) ∧
      (executeBackground beh false c2).status ≠ TaskStatusM.cancelled := by
  intro beh c2 h1 h2 h3 h4
  simp [executeBackground, handleTaskError, h1, h2, h3, h4]

/-- C8 witness: the theorem at the concrete timing-out behavior, even with a
cancellation requested during the body (second checkpoint flag true). -/
theorem timeout_ends_failed_with_timeout_kind_w :
    (executeBackground timeoutBehavior false true).status = TaskStatusM.failed ∧
    (executeBackground timeoutBehavior false true).handledError
      = some (QAErrorKind.timeoutError, ("Task execution timed out")) ∧
    (executeBackground timeoutBehavior false true).status ≠ TaskStatusM.cancelled :=
  timeout_ends_failed_with_timeout_kind timeoutBehavior true rfl rfl rfl rfl

/-- Helper: a subscriber in the snapshot whose callback does not raise
appears in the delivered list. -/
theorem notifySubscribers_delivers (fails : ℕ → Bool) (snap : List ℕ) :
    ∀ (live : List ℕ) (c : ℕ), c ∈ snap → fails c = false →
      c ∈ (notifySubscribers fails snap live).1 := by
  induction snap with
  | nil => intro live c hc _; cases hc
  | cons d rest ih =>
      intro live c hc hok
      rcases List.mem_cons.mp hc with rfl | hmem
      · simp [notifySubscribers, hok]
      · by_cases hd : fails d = true
        · simp only [notifySubscribers, hd, if_true]
          exact ih (live.erase d) c hmem hok
        · simp only [notifySubscribers, hd, if_false]
          exact List.mem_cons.mpr (Or.inr (ih live c hmem hok))

/-- Helper: the live set only ever shrinks during a notification pass. -/
theorem notifySubscribers_live_subset (fails : ℕ → Bool) (snap : List ℕ) :
    ∀ (live : List ℕ), (notifySubscribers fails snap live).2 ⊆ live := by
  induction snap with
  | nil => intro live x hx; simpa [notifySubscribers] using hx
  | cons d rest ih =>
      intro live
      by_cases hd : fails d = true
      · simp only [notifySubscribers, hd, if_true]
        exact (ih (live.erase d)).trans (List.erase_subset ..)
      · simp only [notifySubscribers, hd, if_false]
        exact ih live

/-- Helper: a live subscriber whose callback does not raise survives the
notification pass. -/
theorem notifySubscribers_keeps_ok (fails : ℕ → Bool) (snap : List ℕ) :
    ∀ (live : List ℕ) (c : ℕ), c ∈ live → fails c = false →
      c ∈ (notifySubscribers fails snap live).2 := by
  induction snap with
  | nil => intro live c hc _; simpa [notifySubscribers] using hc
  | cons d rest ih =>
      intro live c hc hok
      by_cases hd : fails d = true
      · simp only [notifySubscribers, hd, if_true]
        have hne : c ≠ d := by
          intro hcd
          rw [hcd] at hok
          rw [hok] at hd
          exact absurd hd (by decide)
        exact ih (live.erase d) c ((List.mem_erase_of_ne hne).mpr hc) hok
      · simp only [notifySubscribers, hd, if_false]
        exact ih live c hc hok

/-- Helper: a raising subscriber from the snapshot is gone from the live
set after the pass (live set assumed duplicate-free, as Python sets are). -/
theorem notifySubscribers_removes_failed (fails : ℕ → Bool) (snap : List ℕ) :
    ∀ (live : List ℕ), live.Nodup → ∀ c ∈ snap, fails c = true →
      c ∉ (notifySubscribers fails snap live).2 := by
  induction snap with
  | nil => intro live _ c hc; cases hc
  | cons d rest ih =>
      intro live hnd c hc hfail
      rcases List.mem_cons.mp hc with rfl | hmem
      · simp only [notifySubscribers, hfail, if_true]
        intro habs
        have h2 := notifySubscribers_live_subset fails rest (live.erase c) habs
        exact ((List.Nodup.mem_erase_iff hnd).mp h2).1 rfl
      · by_cases hd : fails d = true
        · simp only [notifySubscribers, hd, if_true]
          exact ih (live.erase d) (hnd.erase d) c hmem hfail
        · simp only [notifySubscribers, hd, if_false]
          exact ih live hnd c hmem hfail

/-- C9: during `_notify_task_subscribers`, a raising callback is caught and
discarded from the task's subscriber set, and this never prevents delivery
to any other subscriber: every non-raising subscriber both receives the
update and stays subscribed, while every raising subscriber is removed. -/
theorem broadcast_isolates_subscriber_failure :
    ∀ (fails : ℕ → Bool) (subs : List ℕ), subs.Nodup →
      (∀ c ∈ subs, fails c = false →
        c ∈ (broadcastToTask fails subs).1 ∧ c ∈ (broadcastToTask fails subs).2) ∧
      (∀ c ∈ subs, fails c = true → c ∉ (broadcastToTask fails subs).2) := by
  intro fails subs hnd
  refine ⟨fun c hc hok =>
      ⟨notifySubscribers_delivers fails subs subs c hc hok,
       notifySubscribers_keeps_ok fails subs subs c hc hok⟩,
    fun c hc hfail =>
      notifySubscribers_removes_failed fails subs subs hnd c hc hfail⟩

/-- C9 witness: among subscribers 1, 2, 3 with subscriber 2 raising,
subscriber 1 still receives the update and stays subscribed while
subscriber 2 is removed. -/
theorem broadcast_isolates_subscriber_failure_w :
    (1 ∈ (broadcastToTask failsOnlyTwo [1, 2, 3]).1 ∧
      1 ∈ (broadcastToTask failsOnlyTwo [1, 2, 3]).2) ∧
    2 ∉ (broadcastToTask failsOnlyTwo [1, 2, 3]).2 :=
  ⟨(broadcast_isolates_subscriber_failure failsOnlyTwo [1, 2, 3]
      (by decide)).1 1 (by decide) rfl,
   (broadcast_isolates_subscriber_failure failsOnlyTwo [1, 2, 3]
      (by decide)).2 2 (by decide) rfl⟩
